import Mathlib

/-!
Verification of the ardilla Stream Deck driver (package `ardilla`).

This file gives a shallow embedding of the protocol engine in `deck.go` and
the device table in the second source file (the `device` descriptors and the
`writeHeaderV1` / `writeHeaderV2` header fillers), and proves properties of
the embedded operations.

Modelling conventions:
* Go byte slices are `List Nat` whose elements are byte values; a Go byte
  conversion `byte(x)` of a non-negative int is `x % 256`.
* The HID transport is an external collaborator.  Each operation returns the
  list of transport calls it issues (`Call`) together with its result; the
  outcome of each transport call (error code, bytes placed in the caller's
  buffer by a read or a get-feature-report) is passed to the operation as an
  explicit argument.  Transport error codes are `Nat`, wrapped into the
  operation result as `Err.transport`.
* Bus enumeration (used by `checkConnected`) is modelled by a boolean
  `enumerable`: whether a device with the session's cached serial is
  currently enumerable.
* Go panics are modelled by `Option` (`none` = panic).
-/

namespace Ardilla

/-- Errors returned by deck operations.  `transport e` wraps a raw transport
error code, the rest mirror the error values produced in `deck.go`. -/
inductive Err where
  | notConnected
  | notVisual
  | outOfRange (percent : Int)
  | rowOOB (row : Int)
  | colOOB (col : Int)
  | transport (e : Nat)
deriving DecidableEq

/-- One transport call issued by an operation, with the buffer (or requested
size) passed to the HID layer. -/
inductive Call where
  | write (buf : List Nat)
  | read (size : Nat)
  | sendFeature (buf : List Nat)
  | getFeature (buf : List Nat)
deriving DecidableEq

/-- Device descriptor, mirroring the fields of the Go `device` struct that
the embedded operations use.  The image `transform` and `encode` fields of
the Go struct are function-valued and call external image libraries; the
image-pipeline embedding below takes them as explicit function arguments
instead.  Field defaults are the Go zero values used by entries (such as
`StreamDeckPedal`) that omit fields in the composite literal. -/
structure device where
  PID : Nat := 0
  cols : Nat := 0
  rows : Nat := 0
  visual : Bool := false
  keySize : Nat × Nat := (0, 0)
  imgReportLen : Nat := 0
  imageHeader : List Nat := []
  fillHeader : List Nat → Nat → Nat → Nat → Bool → List Nat := fun dst _ _ _ _ => dst
  payloadLen : Nat := 0
  serialPayloadLen : Nat := 0
  resetKeyStream : List Nat := []
  reset : List Nat := []
  brightness : List Nat := []
  serial : List Nat := []
  firmware : List Nat := []
  keyStatesOffset : Nat := 0
  serialOffset : Nat := 0
  firmwareOffset : Nat := 0

/-- Go `boolByte`: 1 for true, 0 for false. -/
def boolByte (b : Bool) : Nat := if b then 1 else 0

/-- Go `writeHeaderV1`: sets page at offset 2, done flag at offset 4 and
key+1 at offset 5 of the packet header (all single bytes). -/
def writeHeaderV1 (dst : List Nat) (key page _len : Nat) (done : Bool) : List Nat :=
  ((dst.set 2 (page % 256)).set 4 (boolByte done)).set 5 ((key + 1) % 256)

/-- Go `writeHeaderV2`: sets key at offset 2, done flag at offset 3, the
chunk length as little-endian uint16 at offsets 4–5 and the page as
little-endian uint16 at offsets 6–7. -/
def writeHeaderV2 (dst : List Nat) (key page len : Nat) (done : Bool) : List Nat :=
  ((((dst.set 2 (key % 256)).set 3 (boolByte done)).set 4
      (len % 65536 % 256)).set 5 (len % 65536 / 256)).set 6
      (page % 65536 % 256) |>.set 7 (page % 65536 / 256)

/-- V1 image packet header template: Go composite literal
`{0x02, 0x01, 0xff, 0x00, 0xff, 0xff, 15: 0}` (length 16). -/
def imageHeaderV1 : List Nat :=
  [0x02, 0x01, 0xff, 0x00, 0xff, 0xff, 0, 0, 0, 0, 0, 0, 0, 0, 0, 0]

/-- V2 image packet header template (length 8). -/
def imageHeaderV2 : List Nat := [0x02, 0x07, 0xff, 0xff, 0xff, 0xff, 0xff, 0xff]

/-- Registry entry for the StreamDeckMini (PID 0x0063). -/
def streamDeckMini : device where
  PID := 0x0063
  cols := 3
  rows := 2
  visual := true
  keySize := (80, 80)
  imgReportLen := 1024
  imageHeader := imageHeaderV1
  fillHeader := writeHeaderV1
  payloadLen := 17
  resetKeyStream := [0x02]
  reset := [0x0b, 0x63]
  brightness := [0x05, 0x55, 0xaa, 0xd1, 0x01]
  serial := [0x03]
  serialOffset := 5
  firmware := [0x04]
  firmwareOffset := 5
  keyStatesOffset := 1

/-- Registry entry for the StreamDeckMiniV2 (PID 0x0090). -/
def streamDeckMiniV2 : device where
  PID := 0x0090
  cols := 3
  rows := 2
  visual := true
  keySize := (80, 80)
  imgReportLen := 1024
  imageHeader := imageHeaderV1
  fillHeader := writeHeaderV1
  payloadLen := 17
  serialPayloadLen := 32
  resetKeyStream := [0x02]
  reset := [0x0b, 0x63]
  brightness := [0x05, 0x55, 0xaa, 0xd1, 0x01]
  serial := [0x03]
  serialOffset := 5
  firmware := [0x04]
  firmwareOffset := 5
  keyStatesOffset := 1

/-- Registry entry for the StreamDeckOriginal (PID 0x0060). -/
def streamDeckOriginal : device where
  PID := 0x0060
  cols := 5
  rows := 3
  visual := true
  keySize := (72, 72)
  imgReportLen := 8191
  imageHeader := imageHeaderV1
  fillHeader := writeHeaderV1
  payloadLen := 17
  resetKeyStream := [0x02]
  reset := [0x0b, 0x63]
  brightness := [0x05, 0x55, 0xaa, 0xd1, 0x01]
  serial := [0x03]
  serialOffset := 5
  firmware := [0x04]
  firmwareOffset := 5
  keyStatesOffset := 1

/-- Registry entry for the StreamDeckOriginalV2 (PID 0x006d). -/
def streamDeckOriginalV2 : device where
  PID := 0x006d
  cols := 5
  rows := 3
  visual := true
  keySize := (72, 72)
  imgReportLen := 1024
  imageHeader := imageHeaderV2
  fillHeader := writeHeaderV2
  payloadLen := 32
  resetKeyStream := [0x02]
  reset := [0x03, 0x02]
  brightness := [0x03, 0x08]
  serial := [0x06]
  serialOffset := 2
  firmware := [0x05]
  firmwareOffset := 6
  keyStatesOffset := 4

/-- Registry entry for the StreamDeckMK2 (PID 0x0080). -/
def streamDeckMK2 : device where
  PID := 0x0080
  cols := 5
  rows := 3
  visual := true
  keySize := (72, 72)
  imgReportLen := 1024
  imageHeader := imageHeaderV2
  fillHeader := writeHeaderV2
  payloadLen := 32
  resetKeyStream := [0x02]
  reset := [0x03, 0x02]
  brightness := [0x03, 0x08]
  serial := [0x06]
  serialOffset := 2
  firmware := [0x05]
  firmwareOffset := 6
  keyStatesOffset := 4

/-- Registry entry for the StreamDeckXL (PID 0x006c). -/
def streamDeckXL : device where
  PID := 0x006c
  cols := 8
  rows := 4
  visual := true
  keySize := (96, 96)
  imgReportLen := 1024
  imageHeader := imageHeaderV2
  fillHeader := writeHeaderV2
  payloadLen := 32
  resetKeyStream := [0x02]
  reset := [0x03, 0x02]
  brightness := [0x03, 0x08]
  serial := [0x06]
  serialOffset := 2
  firmware := [0x05]
  firmwareOffset := 6
  keyStatesOffset := 4

/-- Registry entry for the StreamDeckPedal (PID 0x0086), a control-only
(non-visual) model. -/
def streamDeckPedal : device where
  PID := 0x0086
  cols := 3
  rows := 1
  payloadLen := 32
  serial := [0x06]
  serialOffset := 2
  firmware := [0x05]
  firmwareOffset := 6
  keyStatesOffset := 4

/-- The descriptor registry (Go package-level `devices` map), keyed by PID. -/
def devices (pid : Nat) : Option device :=
  if pid = 0x0063 then some streamDeckMini
  else if pid = 0x0090 then some streamDeckMiniV2
  else if pid = 0x0060 then some streamDeckOriginal
  else if pid = 0x006d then some streamDeckOriginalV2
  else if pid = 0x0080 then some streamDeckMK2
  else if pid = 0x006c then some streamDeckXL
  else if pid = 0x0086 then some streamDeckPedal
  else none

/-- Go `Deck.checkConnected`: a nil error passes through; a non-nil transport
error is replaced by `ErrNotConnected` when the cached serial is no longer
enumerable, and passed through otherwise. -/
def checkConnected (enumerable : Bool) (err : Option Nat) : Option Err :=
  match err with
  | none => none
  | some e => if enumerable then some (Err.transport e) else some Err.notConnected

/-- A zeroed buffer of length n with a command byte sequence copied at
offset 0 (Go `zero(buf)` followed by `copy(buf, cmd)`). -/
def zeroPad (cmd : List Nat) (n : Nat) : List Nat :=
  cmd.take n ++ List.replicate (n - cmd.length) 0

/-- Go conversion `byte(i)` of an int (two's-complement truncation to the
low 8 bits). -/
def intToByte (i : Int) : Nat := (i % 256).toNat

/-- Go `Deck.ResetKeyStream`: no-op on control-only models; otherwise sends
one feature report and returns the raw transport error (it does not route
the error through `checkConnected`). -/
def resetKeyStreamOp (d : device) (sendErr : Option Nat) : List Call × Option Err :=
  if d.visual = false then ([], none)
  else ([Call.sendFeature (zeroPad d.resetKeyStream d.payloadLen)], sendErr.map Err.transport)

/-- Go `Deck.Reset`: no-op on control-only models; otherwise sends one
feature report and routes the transport error through `checkConnected`. -/
def resetOp (d : device) (enumerable : Bool) (sendErr : Option Nat) : List Call × Option Err :=
  if d.visual = false then ([], none)
  else ([Call.sendFeature (zeroPad d.reset d.payloadLen)], checkConnected enumerable sendErr)

/-- Go `Deck.SetBrightness`: returns nil immediately on control-only models;
rejects percent outside [0,100]; otherwise sends one feature report whose
buffer is the brightness command prefix, then the percent byte, zero padded
to the payload length, and routes the transport error through
`checkConnected`. -/
def setBrightnessOp (d : device) (enumerable : Bool) (sendErr : Option Nat) (percent : Int) :
    List Call × Option Err :=
  if d.visual = false then ([], none)
  else if percent < 0 ∨ 100 < percent then ([], some (Err.outOfRange percent))
  else
    let buf := (zeroPad d.brightness d.payloadLen).set d.brightness.length (intToByte percent)
    ([Call.sendFeature buf], checkConnected enumerable sendErr)

/-- Go `Deck.KeyStates`: issues one read sized keyStatesOffset + rows*cols;
on read error routes it through `checkConnected`; otherwise interprets each
byte from the offset as a boolean (non-zero = pressed).  `resp` is the byte
sequence the transport places in the read buffer; bytes it does not fill
keep their zero initial value. -/
def keyStatesOp (d : device) (enumerable : Bool) (readErr : Option Nat) (resp : List Nat) :
    List Call × Except Err (List Bool) :=
  let size := d.keyStatesOffset + d.rows * d.cols
  ([Call.read size],
    match readErr with
    | some e => Except.error (if enumerable then Err.transport e else Err.notConnected)
    | none =>
      let buf := resp.take size ++ List.replicate (size - resp.length) 0
      Except.ok ((buf.drop d.keyStatesOffset).map (fun b => b != 0)))

/-- Go `Deck.Serial`: returns the cached serial if present; otherwise builds
the query (payload length given by serialPayloadLen when non-zero), issues a
get-feature-report, and parses the buffer from serialOffset: up to the first
NUL with the transport error routed through `checkConnected`, or the whole
remainder with a nil error when no NUL is present.  `resp` is the buffer
contents after the get-feature-report call. -/
def serialOp (d : device) (cached : List Nat) (enumerable : Bool) (featErr : Option Nat)
    (resp : List Nat) : List Call × (List Nat × Option Err) :=
  if cached ≠ [] then ([], (cached, none))
  else
    let payloadLen := if d.serialPayloadLen ≠ 0 then d.serialPayloadLen else d.payloadLen
    let req := (zeroPad d.serial payloadLen).set d.serial.length (payloadLen % 256)
    let buf := resp.take payloadLen ++ List.replicate (payloadLen - resp.length) 0
    let s := buf.drop d.serialOffset
    ([Call.getFeature req],
      if s.contains 0 then (s.take (s.findIdx (fun b => b == 0)), checkConnected enumerable featErr)
      else (s, none))

/-- Go `Deck.Firmware`: like the serial query but always with payloadLen,
the firmware prefix and firmwareOffset, and with no cache. -/
def firmwareOp (d : device) (enumerable : Bool) (featErr : Option Nat) (resp : List Nat) :
    List Call × (List Nat × Option Err) :=
  let req := (zeroPad d.firmware d.payloadLen).set d.firmware.length (d.payloadLen % 256)
  let buf := resp.take d.payloadLen ++ List.replicate (d.payloadLen - resp.length) 0
  let s := buf.drop d.firmwareOffset
  ([Call.getFeature req],
    if s.contains 0 then (s.take (s.findIdx (fun b => b == 0)), checkConnected enumerable featErr)
    else (s, none))

/-- A decoded bitmap: its pixel dimensions plus an opaque content token.
The image pipeline never inspects pixel data itself — it only compares
bounds and feeds the bitmap to the scaler / transform / encoder — so the
content is opaque here. -/
structure Bitmap where
  w : Nat
  h : Nat
  content : Nat
deriving DecidableEq

/-- Go `RawImage` / `rawImage`: the retained original bitmap, the encoded
payload, and the PID of the model the payload was computed for.  The
library only ever stores a plain (non-RawImage) bitmap in `orig`: both
construction sites first unwrap an incoming RawImage to its stored
original. -/
structure RawImg where
  orig : Bitmap
  data : List Nat
  pid : Nat
deriving DecidableEq

/-- An `image.Image` argument as the pipeline's type switch sees it: either
a plain bitmap or a `*RawImage`. -/
inductive Img where
  | bitmap (b : Bitmap)
  | raw (r : RawImg)
deriving DecidableEq

/-- Tail of Go `Deck.RawImage` after the visual check and RawImage unwrap:
if the bitmap's bounds differ from the button bounds it is resized (the
x/image `draw.BiLinear.Scale` collaborator, passed as `scale`), then the
model transform is applied, the result encoded, and the original bitmap
retained alongside the payload and the model PID. -/
def rawImageBody (scale : Nat × Nat → Bitmap → Bitmap) (transform : Bitmap → Bitmap)
    (encode : Bitmap → List Nat) (d : device) (bmp : Bitmap) : RawImg :=
  let img := if (bmp.w, bmp.h) ≠ d.keySize then scale d.keySize bmp else bmp
  { orig := bmp, data := encode (transform img), pid := d.PID }

/-- Go `Deck.RawImage`: errors on a non-visual model; returns a RawImage
bound to this model unchanged; unwraps a RawImage bound to another model to
its stored original and reruns the pipeline; runs the pipeline on a plain
bitmap. -/
def rawImageOp (scale : Nat × Nat → Bitmap → Bitmap) (transform : Bitmap → Bitmap)
    (encode : Bitmap → List Nat) (d : device) (img : Img) : Except Err RawImg :=
  if d.visual = false then Except.error Err.notVisual
  else
    match img with
    | Img.raw r =>
      if r.pid = d.PID then Except.ok r
      else Except.ok (rawImageBody scale transform encode d r.orig)
    | Img.bitmap b => Except.ok (rawImageBody scale transform encode d b)

/-- The raw-image selection in Go `Deck.SetImage`'s type switch: a RawImage
bound to this model is used directly; one bound to another model is
unwrapped and re-fed to `Deck.RawImage`; anything else goes through
`Deck.RawImage`. -/
def setImageRawSel (scale : Nat × Nat → Bitmap → Bitmap) (transform : Bitmap → Bitmap)
    (encode : Bitmap → List Nat) (d : device) (img : Img) : Except Err RawImg :=
  match img with
  | Img.raw r =>
    if r.pid = d.PID then Except.ok r
    else rawImageOp scale transform encode d (Img.bitmap r.orig)
  | Img.bitmap b => rawImageOp scale transform encode d (Img.bitmap b)

/-- Concrete scaler used by witnesses: resizes to the requested bounds and
marks the content. -/
def testScale : Nat × Nat → Bitmap → Bitmap :=
  fun sz b => { w := sz.1, h := sz.2, content := b.content + 1000 }

/-- Concrete transform used by witnesses. -/
def testTransform : Bitmap → Bitmap := fun b => { b with content := b.content * 2 }

/-- Concrete encoder used by witnesses. -/
def testEncode : Bitmap → List Nat := fun b => [b.w, b.h, b.content]

/-- One image packet written by Go `Deck.SetImage`, instrumented with the
arguments (page, chunk byte count, done flag) that the loop passed to the
header filler for that packet. -/
structure SentPacket where
  bytes : List Nat
  page : Nat
  len : Nat
  done : Bool
deriving DecidableEq, Inhabited

/-- The packet buffer after the `bytes.Reader` read of one iteration of the
Go `Deck.SetImage` loop: the read copies `n = min B remaining` payload bytes
to the body positions starting at `hdrLen` (B is the body capacity
`reportLen - hdrLen`), leaving the header and the body positions beyond `n`
as the previous iteration left them. -/
def readChunk (hdrLen reportLen : Nat) (remaining pkt : List Nat) : List Nat :=
  pkt.take hdrLen ++ remaining.take (reportLen - hdrLen) ++
    pkt.drop (hdrLen + min (reportLen - hdrLen) remaining.length)

/-- The done flag of one iteration of the Go `Deck.SetImage` loop: the
payload is exhausted after the read, or the read returned fewer bytes than
the body capacity. -/
def chunkDone (hdrLen reportLen : Nat) (remaining : List Nat) : Bool :=
  (remaining.drop (reportLen - hdrLen)).isEmpty ||
    decide (min (reportLen - hdrLen) remaining.length < reportLen - hdrLen)

/-- The packet buffer one iteration of the Go `Deck.SetImage` loop passes to
the transport write: the buffer after the read, with the header bytes
rewritten in place by the model's header filler. -/
def chunkPacket (fill : List Nat → Nat → Nat → Nat → Bool → List Nat)
    (hdrLen reportLen key : Nat) (remaining pkt : List Nat) (page : Nat) : List Nat :=
  let pkt1 := readChunk hdrLen reportLen remaining pkt
  fill (pkt1.take hdrLen) key page (min (reportLen - hdrLen) remaining.length)
    (chunkDone hdrLen reportLen remaining) ++ pkt1.drop hdrLen

/-- The packet loop of Go `Deck.SetImage`.  The packet buffer `pkt` is
allocated once (header template followed by zeros) and reused across
iterations: each iteration overwrites it as `chunkPacket` describes and
writes it to the transport.  `writeErr` gives the transport write outcome
per page; a failed write aborts the loop.  `fuel` bounds the recursion and
is at least the payload length at the top call, which suffices since every
iteration consumes at least one byte. -/
def setImageLoop (fill : List Nat → Nat → Nat → Nat → Bool → List Nat)
    (hdrLen reportLen key : Nat) (writeErr : Nat → Option Nat) :
    Nat → List Nat → Nat → List Nat → List SentPacket × Option Nat
  | 0, _, _, _ => ([], none)
  | fuel + 1, remaining, page, pkt =>
    if remaining.isEmpty then ([], none)
    else
      let n := min (reportLen - hdrLen) remaining.length
      let dn := chunkDone hdrLen reportLen remaining
      let pkt2 := chunkPacket fill hdrLen reportLen key remaining pkt page
      match writeErr page with
      | some e => ([⟨pkt2, page, n, dn⟩], some e)
      | none =>
        let r := setImageLoop fill hdrLen reportLen key writeErr fuel
          (remaining.drop (reportLen - hdrLen)) (page + 1) pkt2
        (⟨pkt2, page, n, dn⟩ :: r.1, r.2)

/-- The specification of the packet stream produced by one run of the
Go `Deck.SetImage` loop on `remaining` starting at page `page` with packet
buffer `pkt`, when every write succeeds: no error; exactly
⌈remaining/B⌉ packets (B the body capacity); the i-th packet carries page
`page + i`, chunk byte count `min B (remaining - i*B)`, a done flag set
exactly on the last packet, and a buffer of the full report length whose
body is the i-th payload slice followed — in a short final slice — by the
residual bytes the previous iteration left in the buffer (the zero padding
of the initial buffer for a single-packet payload, the previous chunk's
bytes otherwise). -/
def ChunkStreamSpec (hdrLen reportLen : Nat) (remaining : List Nat) (page : Nat)
    (pkt : List Nat) (r : List SentPacket × Option Nat) : Prop :=
  r.2 = none ∧
  r.1.length = (remaining.length + (reportLen - hdrLen) - 1) / (reportLen - hdrLen) ∧
  ∀ i (h : i < r.1.length),
    (r.1[i]).page = page + i ∧
    (r.1[i]).len =
      min (reportLen - hdrLen) (remaining.length - i * (reportLen - hdrLen)) ∧
    (r.1[i]).done = decide (i + 1 = r.1.length) ∧
    (r.1[i]).bytes.length = reportLen ∧
    (r.1[i]).bytes.drop hdrLen =
      (remaining.drop (i * (reportLen - hdrLen))).take (reportLen - hdrLen) ++
        (if i = 0 then pkt.drop hdrLen
          else (remaining.drop ((i - 1) * (reportLen - hdrLen))).take
            (reportLen - hdrLen)).drop
          (min (reportLen - hdrLen) (remaining.length - i * (reportLen - hdrLen)))

/-- The packet stream Go `Deck.SetImage` writes for one encoded payload:
the packet buffer starts as the header template padded with zeros to the
report length, and the loop runs from page 0. -/
def setImagePackets (fill : List Nat → Nat → Nat → Nat → Bool → List Nat)
    (hdr : List Nat) (reportLen key : Nat) (data : List Nat) (writeErr : Nat → Option Nat) :
    List SentPacket × Option Nat :=
  let pkt0 := hdr.take reportLen ++ List.replicate (reportLen - hdr.length) 0
  setImageLoop fill hdr.length reportLen key writeErr data.length data 0 pkt0

/-- Go `Deck.SetImage`: bounds checks as written in the source, raw image
selection, then the packet loop, with a write failure routed through
`checkConnected`. -/
def setImageOp (scale : Nat × Nat → Bitmap → Bitmap) (transform : Bitmap → Bitmap)
    (encode : Bitmap → List Nat) (d : device) (enumerable : Bool) (row col : Int)
    (img : Img) (writeErr : Nat → Option Nat) : List Call × Option Err :=
  if row < 0 ∨ (d.rows : Int) < row then ([], some (Err.rowOOB row))
  else if col < 0 ∨ (d.cols : Int) < col then ([], some (Err.colOOB col))
  else
    match setImageRawSel scale transform encode d img with
    | Except.error e => ([], some e)
    | Except.ok raw =>
      let key := (row * d.cols + col).toNat
      let r := setImagePackets d.fillHeader d.imageHeader d.imgReportLen key raw.data writeErr
      (r.1.map (fun p => Call.write p.bytes), checkConnected enumerable r.2)

/-- Go `Deck.Key`: the row/column bounds checks as written in the source
(`row < 0 || d.desc.rows < row`, and likewise for col), then
`row*cols + col`.  A panic is modelled as `none`. -/
def keyOp (d : device) (row col : Int) : Option Nat :=
  if row < 0 ∨ (d.rows : Int) < row then none
  else if col < 0 ∨ (d.cols : Int) < col then none
  else some (row * d.cols + col).toNat

/-- One iteration of the Go `Deck.Reconnect` loop, seen from its
synchronisation points: either the context is cancelled while waiting on the
delay timer (`cancel`), or the timer fires (`tick`) and the cycle observes
whether the cached serial is enumerable (`found`) and, when it is, the
outcome of the fresh `NewDeck` open (`openErr`, `none` meaning success). -/
inductive CycleEv where
  | cancel
  | tick (found : Bool) (openErr : Option Nat)
deriving DecidableEq

/-- Result of a run of the reconnect loop: `returned cycles err replaced`
when the loop returns after completing `cycles` full delay cycles
(`replaced` records whether the session state was replaced by a fresh open),
or `pending err` when the event schedule ran out before the loop returned. -/
inductive RecRes where
  | returned (cycles : Nat) (err : Option Err) (replaced : Bool)
  | pending (err : Option Err)
deriving DecidableEq

/-- Go `Deck.Reconnect` over an explicit event schedule.  `err` is the
running last-observed error (`nil` at entry), `n` the number of completed
delay cycles.  On cancellation the loop returns the last error; on a tick
with the serial not enumerable it records `ErrNotConnected` and retries; on
a successful open it closes the old handle, replaces the session state in
place and returns nil. -/
def reconnectOp : List CycleEv → Option Err → Nat → RecRes
  | [], err, _ => RecRes.pending err
  | CycleEv.cancel :: _, err, n => RecRes.returned n err false
  | CycleEv.tick found openErr :: rest, _err, n =>
    if found = false then reconnectOp rest (some Err.notConnected) (n + 1)
    else
      match openErr with
      | none => RecRes.returned (n + 1) none true
      | some e => reconnectOp rest (some (Err.transport e)) (n + 1)

/-! Helper lemmas. -/

theorem reconnectOp_tick_false (oe : Option Nat) (rest : List CycleEv) (err : Option Err)
    (n : Nat) :
    reconnectOp (CycleEv.tick false oe :: rest) err n =
      reconnectOp rest (some Err.notConnected) (n + 1) := rfl

theorem reconnectOp_notFound (oe : Option Nat) :
    ∀ (m : Nat) (evs : List CycleEv) (err : Option Err) (n : Nat), 1 ≤ m →
      reconnectOp (List.replicate m (CycleEv.tick false oe) ++ evs) err n =
        reconnectOp evs (some Err.notConnected) (n + m) := by
  intro m
  induction m with
  | zero => omega
  | succ k ih =>
    intro evs err n _
    rw [List.replicate_succ, List.cons_append, reconnectOp_tick_false]
    rcases Nat.eq_zero_or_pos k with h0 | hk
    · subst h0
      simp
    · rw [ih evs (some Err.notConnected) (n + 1) hk]
      congr 1
      omega

theorem set_at_append_length (a b : List Nat) (v : Nat) :
    (a ++ b).set a.length v = a ++ b.set 0 v := by
  induction a with
  | nil => simp
  | cons x xs ih => simp [List.set, ih]

theorem zeroPad_set (cmd : List Nat) (n v : Nat) (h : cmd.length + 1 ≤ n) :
    (zeroPad cmd n).set cmd.length v =
      cmd ++ v :: List.replicate (n - (cmd.length + 1)) 0 := by
  unfold zeroPad
  rw [List.take_of_length_le (by omega), set_at_append_length]
  congr 1
  have hrep : n - cmd.length = (n - (cmd.length + 1)) + 1 := by omega
  rw [hrep, List.replicate_succ]
  simp [List.set]

/-! Theorems for the claims. -/

/-- Claim C2: the V1 header filler writes the page number as a byte at
offset 2, the done flag (1 for true, 0 for false) at offset 4 and key+1 as a
byte at offset 5; the V2 header filler writes the key as a byte at offset 2,
the done flag at offset 3, the chunk byte count as a little-endian 16-bit
value at offsets 4–5 and the page number as a little-endian 16-bit value at
offsets 6–7; no other byte is modified by either filler. -/
theorem claim_C2_header_fillers (dst1 dst2 : List Nat) (key page len : Nat) (done : Bool)
    (h1 : 6 ≤ dst1.length) (h2 : 8 ≤ dst2.length) :
    ((writeHeaderV1 dst1 key page len done)[2]? = some (page % 256) ∧
     (writeHeaderV1 dst1 key page len done)[4]? = some (if done then 1 else 0) ∧
     (writeHeaderV1 dst1 key page len done)[5]? = some ((key + 1) % 256) ∧
     ∀ i, i ≠ 2 → i ≠ 4 → i ≠ 5 → (writeHeaderV1 dst1 key page len done)[i]? = dst1[i]?) ∧
    ((writeHeaderV2 dst2 key page len done)[2]? = some (key % 256) ∧
     (writeHeaderV2 dst2 key page len done)[3]? = some (if done then 1 else 0) ∧
     (writeHeaderV2 dst2 key page len done)[4]? = some (len % 65536 % 256) ∧
     (writeHeaderV2 dst2 key page len done)[5]? = some (len % 65536 / 256) ∧
     (writeHeaderV2 dst2 key page len done)[6]? = some (page % 65536 % 256) ∧
     (writeHeaderV2 dst2 key page len done)[7]? = some (page % 65536 / 256) ∧
     ∀ i, i ≠ 2 → i ≠ 3 → i ≠ 4 → i ≠ 5 → i ≠ 6 → i ≠ 7 →
       (writeHeaderV2 dst2 key page len done)[i]? = dst2[i]?) := by
  refine ⟨⟨?_, ?_, ?_, ?_⟩, ?_, ?_, ?_, ?_, ?_, ?_, ?_⟩ <;>
    simp only [writeHeaderV1, writeHeaderV2, boolByte]
  · rw [List.getElem?_set_ne (by omega), List.getElem?_set_ne (by omega),
      List.getElem?_set_eq_of_lt _ (by omega)]
  · rw [List.getElem?_set_ne (by omega),
      List.getElem?_set_eq_of_lt _ (by simp; omega)]
  · rw [List.getElem?_set_eq_of_lt _ (by simp; omega)]
  · intro i hi2 hi4 hi5
    rw [List.getElem?_set_ne (by omega), List.getElem?_set_ne (by omega),
      List.getElem?_set_ne (by omega)]
  · rw [List.getElem?_set_ne (by omega), List.getElem?_set_ne (by omega),
      List.getElem?_set_ne (by omega), List.getElem?_set_ne (by omega),
      List.getElem?_set_ne (by omega), List.getElem?_set_eq_of_lt _ (by omega)]
  · rw [List.getElem?_set_ne (by omega), List.getElem?_set_ne (by omega),
      List.getElem?_set_ne (by omega), List.getElem?_set_ne (by omega),
      List.getElem?_set_eq_of_lt _ (by simp; omega)]
  · rw [List.getElem?_set_ne (by omega), List.getElem?_set_ne (by omega),
      List.getElem?_set_ne (by omega),
      List.getElem?_set_eq_of_lt _ (by simp; omega)]
  · rw [List.getElem?_set_ne (by omega), List.getElem?_set_ne (by omega),
      List.getElem?_set_eq_of_lt _ (by simp; omega)]
  · rw [List.getElem?_set_ne (by omega),
      List.getElem?_set_eq_of_lt _ (by simp; omega)]
  · rw [List.getElem?_set_eq_of_lt _ (by simp; omega)]
  · intro i hi2 hi3 hi4 hi5 hi6 hi7
    rw [List.getElem?_set_ne (by omega), List.getElem?_set_ne (by omega),
      List.getElem?_set_ne (by omega), List.getElem?_set_ne (by omega),
      List.getElem?_set_ne (by omega), List.getElem?_set_ne (by omega)]

/-- Witness for claim C2 at concrete inputs (the real header templates,
key 3, page 5, chunk length 300, done = true). -/
theorem claim_C2_witness :
    (6 ≤ imageHeaderV1.length ∧ 8 ≤ imageHeaderV2.length) ∧
    (((writeHeaderV1 imageHeaderV1 3 5 300 true)[2]? = some (5 % 256) ∧
      (writeHeaderV1 imageHeaderV1 3 5 300 true)[4]? = some (if true then 1 else 0) ∧
      (writeHeaderV1 imageHeaderV1 3 5 300 true)[5]? = some ((3 + 1) % 256) ∧
      ∀ i, i ≠ 2 → i ≠ 4 → i ≠ 5 →
        (writeHeaderV1 imageHeaderV1 3 5 300 true)[i]? = imageHeaderV1[i]?) ∧
     ((writeHeaderV2 imageHeaderV2 3 5 300 true)[2]? = some (3 % 256) ∧
      (writeHeaderV2 imageHeaderV2 3 5 300 true)[3]? = some (if true then 1 else 0) ∧
      (writeHeaderV2 imageHeaderV2 3 5 300 true)[4]? = some (300 % 65536 % 256) ∧
      (writeHeaderV2 imageHeaderV2 3 5 300 true)[5]? = some (300 % 65536 / 256) ∧
      (writeHeaderV2 imageHeaderV2 3 5 300 true)[6]? = some (5 % 65536 % 256) ∧
      (writeHeaderV2 imageHeaderV2 3 5 300 true)[7]? = some (5 % 65536 / 256) ∧
      ∀ i, i ≠ 2 → i ≠ 3 → i ≠ 4 → i ≠ 5 → i ≠ 6 → i ≠ 7 →
        (writeHeaderV2 imageHeaderV2 3 5 300 true)[i]? = imageHeaderV2[i]?)) :=
  ⟨⟨by decide, by decide⟩,
    claim_C2_header_fillers imageHeaderV1 imageHeaderV2 3 5 300 true (by decide) (by decide)⟩

/-- Claim C4, counterexample: on the control-only StreamDeckPedal,
SetBrightness with percent -1 returns success (nil error, no transport
call), contradicting the claim that every session rejects out-of-range
percent values with an out-of-range error. -/
theorem claim_C4_counterexample :
    setBrightnessOp streamDeckPedal true none (-1) = ([], none) ∧
    ∀ p : Int, (setBrightnessOp streamDeckPedal true none (-1)).2 ≠ some (Err.outOfRange p) := by
  refine ⟨rfl, ?_⟩
  intro p h
  simp [setBrightnessOp, streamDeckPedal] at h

/-- Claim C4 (amended to visual models): on a visual model, SetBrightness
rejects percent outside [0,100] with an out-of-range error and no transport
call; for percent in [0,100] it issues exactly one feature-report write
whose buffer is the brightness prefix, then the percent byte, then zeros up
to the payload length, routing the transport error through the
connectivity check. -/
theorem claim_C4_brightness (d : device) (en : Bool) (se : Option Nat) (percent : Int)
    (hv : d.visual = true) (hlen : d.brightness.length + 1 ≤ d.payloadLen) :
    ((percent < 0 ∨ 100 < percent) →
      setBrightnessOp d en se percent = ([], some (Err.outOfRange percent))) ∧
    (0 ≤ percent → percent ≤ 100 →
      intToByte percent = percent.toNat ∧
      setBrightnessOp d en se percent =
        ([Call.sendFeature (d.brightness ++ intToByte percent ::
            List.replicate (d.payloadLen - (d.brightness.length + 1)) 0)],
          checkConnected en se)) := by
  constructor
  · intro h
    rcases h with h | h <;> simp [setBrightnessOp, hv, h]
  · intro h0 h100
    refine ⟨by unfold intToByte; omega, ?_⟩
    have hcond : ¬(percent < 0 ∨ 100 < percent) := by omega
    simp [setBrightnessOp, hv, hcond,
      zeroPad_set d.brightness d.payloadLen (intToByte percent) hlen]

/-- Witness for claim C4 at StreamDeckMK2 with percent 42. -/
theorem claim_C4_witness :
    (streamDeckMK2.visual = true ∧
      streamDeckMK2.brightness.length + 1 ≤ streamDeckMK2.payloadLen) ∧
    (((42:Int) < 0 ∨ 100 < (42:Int)) →
      setBrightnessOp streamDeckMK2 true none 42 = ([], some (Err.outOfRange 42))) ∧
    ((0:Int) ≤ 42 → (42:Int) ≤ 100 →
      intToByte 42 = (42:Int).toNat ∧
      setBrightnessOp streamDeckMK2 true none 42 =
        ([Call.sendFeature (streamDeckMK2.brightness ++ intToByte 42 ::
            List.replicate (streamDeckMK2.payloadLen - (streamDeckMK2.brightness.length + 1)) 0)],
          checkConnected true none)) := by
  have h := claim_C4_brightness streamDeckMK2 true none 42 (by decide) (by decide)
  exact ⟨⟨by decide, by decide⟩, h.1, h.2⟩

/-- Claim C10: on a control-only (non-visual) model, SetBrightness returns
success with zero transport calls for every percent value, including values
outside [0,100], because the visual-model check precedes the range check. -/
theorem claim_C10_brightness_controlOnly (d : device) (en : Bool) (se : Option Nat)
    (percent : Int) (hv : d.visual = false) :
    setBrightnessOp d en se percent = ([], none) := by
  simp [setBrightnessOp, hv]

/-- Witness for claim C10 at the StreamDeckPedal with percent -1 and a
failing transport. -/
theorem claim_C10_witness :
    streamDeckPedal.visual = false ∧
    setBrightnessOp streamDeckPedal true (some 7) (-1) = ([], none) :=
  ⟨by decide, claim_C10_brightness_controlOnly streamDeckPedal true (some 7) (-1) (by decide)⟩

/-- Claim C7, counterexample: when the cancellation signal fires during the
first delay cycle (before any enumeration check has run), Reconnect returns
the initial nil error — success, not the NotConnected error the claim
requires for a run in which the serial is never re-enumerated. -/
theorem claim_C7_counterexample :
    reconnectOp [CycleEv.cancel] none 0 = RecRes.returned 0 none false ∧
    RecRes.returned 0 (none : Option Err) false ≠
      RecRes.returned 0 (some Err.notConnected) false :=
  ⟨rfl, by decide⟩

/-- Claim C7 (amended): if the serial is never re-enumerated, Reconnect
returns at cancellation with the last observed error — NotConnected when at
least one delay cycle completed before cancellation, but the initial nil
error when cancellation fires during the first delay; if the serial becomes
enumerable on the Nth check and the fresh open succeeds, Reconnect returns
success after exactly N delay cycles with the session state replaced. -/
theorem claim_C7_reconnect (m N : Nat) (rest1 rest2 : List CycleEv)
    (hm : 1 ≤ m) (hN : 1 ≤ N) :
    reconnectOp (List.replicate m (CycleEv.tick false none) ++ CycleEv.cancel :: rest1) none 0 =
      RecRes.returned m (some Err.notConnected) false ∧
    reconnectOp (List.replicate (N - 1) (CycleEv.tick false none) ++
        CycleEv.tick true none :: rest2) none 0 =
      RecRes.returned N none true := by
  constructor
  · rw [reconnectOp_notFound none m _ none 0 hm]
    simp [reconnectOp]
  · rcases Nat.eq_zero_or_pos (N - 1) with h0 | hk
    · have hN1 : N = 1 := by omega
      subst hN1
      simp [reconnectOp]
    · rw [reconnectOp_notFound none (N - 1) _ none 0 hk]
      show RecRes.returned (0 + (N - 1) + 1) none true = _
      congr 1
      omega

/-- Witness for claim C7 with two failed checks before cancellation and with
success on the third check. -/
theorem claim_C7_witness :
    (1 ≤ 2 ∧ 1 ≤ 3) ∧
    reconnectOp (List.replicate 2 (CycleEv.tick false none) ++ CycleEv.cancel :: []) none 0 =
      RecRes.returned 2 (some Err.notConnected) false ∧
    reconnectOp (List.replicate (3 - 1) (CycleEv.tick false none) ++
        CycleEv.tick true none :: []) none 0 =
      RecRes.returned 3 none true :=
  ⟨⟨by decide, by decide⟩, claim_C7_reconnect 2 3 [] [] (by decide) (by decide)⟩

/-- Claim C8: a successful KeyStates call issues exactly one transport read
sized keyStatesOffset + rows*cols and returns exactly rows*cols booleans,
the i-th true exactly when the report byte at keyStatesOffset + i is
non-zero. -/
theorem claim_C8_keyStates (d : device) (en : Bool) (resp : List Nat)
    (hresp : resp.length = d.keyStatesOffset + d.rows * d.cols) :
    (keyStatesOp d en none resp).1 =
      [Call.read (d.keyStatesOffset + d.rows * d.cols)] ∧
    ∃ l, (keyStatesOp d en none resp).2 = Except.ok l ∧
      l.length = d.rows * d.cols ∧
      ∀ i : Nat, l[i]? = (resp[d.keyStatesOffset + i]?).map (fun b => b != 0) := by
  refine ⟨rfl, (resp.drop d.keyStatesOffset).map (fun b => b != 0), ?_, ?_, ?_⟩
  · simp [keyStatesOp, ← hresp]
  · simp only [List.length_map, List.length_drop]
    omega
  · intro i
    simp [List.getElem?_map, List.getElem?_drop]

/-- Witness for claim C8 on the StreamDeckMini with the report bytes of the
spec's key-state example. -/
theorem claim_C8_witness :
    ([9, 0, 0, 1, 0, 0, 1] : List Nat).length =
      streamDeckMini.keyStatesOffset + streamDeckMini.rows * streamDeckMini.cols ∧
    ((keyStatesOp streamDeckMini true none [9, 0, 0, 1, 0, 0, 1]).1 =
        [Call.read (streamDeckMini.keyStatesOffset +
          streamDeckMini.rows * streamDeckMini.cols)] ∧
      ∃ l, (keyStatesOp streamDeckMini true none [9, 0, 0, 1, 0, 0, 1]).2 = Except.ok l ∧
        l.length = streamDeckMini.rows * streamDeckMini.cols ∧
        ∀ i : Nat, l[i]? =
          (([9, 0, 0, 1, 0, 0, 1] : List Nat)[streamDeckMini.keyStatesOffset + i]?).map
            (fun b => b != 0)) ∧
    (keyStatesOp streamDeckMini true none [9, 0, 0, 1, 0, 0, 1]).2 =
      Except.ok [false, false, true, false, false, true] :=
  ⟨by decide, claim_C8_keyStates streamDeckMini true [9, 0, 0, 1, 0, 0, 1] (by decide),
    rfl⟩

/-- Claim C9: when the serial or firmware query response holds no NUL byte
at or after the configured string offset, the operation returns the entire
remaining buffer with a nil error, even though the get-feature-report call
returned an error — the transport error is discarded in this branch. -/
theorem claim_C9_serial_firmware (d : device) (en : Bool) (e : Nat) (resp1 resp2 : List Nat)
    (h1 : resp1.length = if d.serialPayloadLen ≠ 0 then d.serialPayloadLen else d.payloadLen)
    (h2 : resp2.length = d.payloadLen)
    (hn1 : ¬ 0 ∈ resp1.drop d.serialOffset)
    (hn2 : ¬ 0 ∈ resp2.drop d.firmwareOffset) :
    (serialOp d [] en (some e) resp1).2 = (resp1.drop d.serialOffset, none) ∧
    (firmwareOp d en (some e) resp2).2 = (resp2.drop d.firmwareOffset, none) := by
  constructor
  · simp [serialOp, ← h1, hn1]
  · simp [firmwareOp, ← h2, hn2]

/-- Witness for claim C9 on the StreamDeckMini with all-printable (NUL-free)
responses and a failing transport (error code 3). -/
theorem claim_C9_witness :
    ((List.replicate 17 65 : List Nat).length =
        (if streamDeckMini.serialPayloadLen ≠ 0 then streamDeckMini.serialPayloadLen
          else streamDeckMini.payloadLen) ∧
      (List.replicate 17 66 : List Nat).length = streamDeckMini.payloadLen ∧
      ¬ 0 ∈ (List.replicate 17 65 : List Nat).drop streamDeckMini.serialOffset ∧
      ¬ 0 ∈ (List.replicate 17 66 : List Nat).drop streamDeckMini.firmwareOffset) ∧
    (serialOp streamDeckMini [] true (some 3) (List.replicate 17 65)).2 =
      ((List.replicate 17 65 : List Nat).drop streamDeckMini.serialOffset, none) ∧
    (firmwareOp streamDeckMini true (some 3) (List.replicate 17 66)).2 =
      ((List.replicate 17 66 : List Nat).drop streamDeckMini.firmwareOffset, none) :=
  ⟨⟨by decide, by decide, by decide, by decide⟩,
    claim_C9_serial_firmware streamDeckMini true 3 (List.replicate 17 65)
      (List.replicate 17 66) (by decide) (by decide) (by decide) (by decide)⟩

/-- Claim C3: the pipeline is deterministic (two calls on the same bitmap
yield identical payloads); a RawImage bound to this model is returned/used
unchanged by RawImage and SetImage with no recomputation; a RawImage bound
to another model is unwrapped to its stored original bitmap and the whole
pipeline reruns on it for the current model. -/
theorem claim_C3_rawImage (scale : Nat × Nat → Bitmap → Bitmap) (transform : Bitmap → Bitmap)
    (encode : Bitmap → List Nat) (d : device) (b : Bitmap) (r : RawImg)
    (hv : d.visual = true) :
    (∀ r1 r2, rawImageOp scale transform encode d (Img.bitmap b) = Except.ok r1 →
      rawImageOp scale transform encode d (Img.bitmap b) = Except.ok r2 →
      r1.data = r2.data) ∧
    (r.pid = d.PID →
      rawImageOp scale transform encode d (Img.raw r) = Except.ok r ∧
      setImageRawSel scale transform encode d (Img.raw r) = Except.ok r) ∧
    (r.pid ≠ d.PID →
      rawImageOp scale transform encode d (Img.raw r) =
        rawImageOp scale transform encode d (Img.bitmap r.orig) ∧
      setImageRawSel scale transform encode d (Img.raw r) =
        rawImageOp scale transform encode d (Img.bitmap r.orig) ∧
      rawImageOp scale transform encode d (Img.raw r) =
        Except.ok (rawImageBody scale transform encode d r.orig)) := by
  refine ⟨?_, ?_, ?_⟩
  · intro r1 r2 h1 h2
    have h := h1.symm.trans h2
    injection h with h
    rw [h]
  · intro hp
    constructor <;> simp [rawImageOp, setImageRawSel, hv, hp]
  · intro hp
    refine ⟨?_, ?_, ?_⟩ <;> simp [rawImageOp, setImageRawSel, hv, hp]

/-- Witness for claim C3 on the StreamDeckMini, with a payload bound to the
Mini (returned unchanged) and the same payload re-bound by the theorem's
different-model clause exercised via an MK2-bound payload checked
concretely. -/
theorem claim_C3_witness :
    streamDeckMini.visual = true ∧
    ((∀ r1 r2,
        rawImageOp testScale testTransform testEncode streamDeckMini
          (Img.bitmap ⟨10, 10, 5⟩) = Except.ok r1 →
        rawImageOp testScale testTransform testEncode streamDeckMini
          (Img.bitmap ⟨10, 10, 5⟩) = Except.ok r2 →
        r1.data = r2.data) ∧
      ((rawImageBody testScale testTransform testEncode streamDeckMini ⟨10, 10, 5⟩).pid =
          streamDeckMini.PID →
        rawImageOp testScale testTransform testEncode streamDeckMini
          (Img.raw (rawImageBody testScale testTransform testEncode streamDeckMini
            ⟨10, 10, 5⟩)) =
          Except.ok (rawImageBody testScale testTransform testEncode streamDeckMini
            ⟨10, 10, 5⟩) ∧
        setImageRawSel testScale testTransform testEncode streamDeckMini
          (Img.raw (rawImageBody testScale testTransform testEncode streamDeckMini
            ⟨10, 10, 5⟩)) =
          Except.ok (rawImageBody testScale testTransform testEncode streamDeckMini
            ⟨10, 10, 5⟩)) ∧
      ((rawImageBody testScale testTransform testEncode streamDeckMini ⟨10, 10, 5⟩).pid ≠
          streamDeckMini.PID →
        rawImageOp testScale testTransform testEncode streamDeckMini
          (Img.raw (rawImageBody testScale testTransform testEncode streamDeckMini
            ⟨10, 10, 5⟩)) =
          rawImageOp testScale testTransform testEncode streamDeckMini
            (Img.bitmap (rawImageBody testScale testTransform testEncode streamDeckMini
              ⟨10, 10, 5⟩).orig) ∧
        setImageRawSel testScale testTransform testEncode streamDeckMini
          (Img.raw (rawImageBody testScale testTransform testEncode streamDeckMini
            ⟨10, 10, 5⟩)) =
          rawImageOp testScale testTransform testEncode streamDeckMini
            (Img.bitmap (rawImageBody testScale testTransform testEncode streamDeckMini
              ⟨10, 10, 5⟩).orig) ∧
        rawImageOp testScale testTransform testEncode streamDeckMini
          (Img.raw (rawImageBody testScale testTransform testEncode streamDeckMini
            ⟨10, 10, 5⟩)) =
          Except.ok (rawImageBody testScale testTransform testEncode streamDeckMini
            (rawImageBody testScale testTransform testEncode streamDeckMini
              ⟨10, 10, 5⟩).orig))) ∧
    rawImageOp testScale testTransform testEncode streamDeckMini
        (Img.raw (rawImageBody testScale testTransform testEncode streamDeckMK2
          ⟨10, 10, 5⟩)) =
      Except.ok (rawImageBody testScale testTransform testEncode streamDeckMini
        ⟨10, 10, 5⟩) :=
  ⟨by decide,
    claim_C3_rawImage testScale testTransform testEncode streamDeckMini ⟨10, 10, 5⟩
      (rawImageBody testScale testTransform testEncode streamDeckMini ⟨10, 10, 5⟩)
      (by decide),
    rfl⟩

/-! Unfolding and arithmetic lemmas for the SetImage packet loop. -/

theorem setImageLoop_zero (fill : List Nat → Nat → Nat → Nat → Bool → List Nat)
    (hdrLen reportLen key : Nat) (writeErr : Nat → Option Nat) (remaining : List Nat)
    (page : Nat) (pkt : List Nat) :
    setImageLoop fill hdrLen reportLen key writeErr 0 remaining page pkt = ([], none) := rfl

theorem setImageLoop_nil (fill : List Nat → Nat → Nat → Nat → Bool → List Nat)
    (hdrLen reportLen key : Nat) (writeErr : Nat → Option Nat) (f page : Nat)
    (pkt : List Nat) :
    setImageLoop fill hdrLen reportLen key writeErr (f + 1) [] page pkt = ([], none) := rfl

theorem setImageLoop_nil_any (fill : List Nat → Nat → Nat → Nat → Bool → List Nat)
    (hdrLen reportLen key : Nat) (writeErr : Nat → Option Nat) (f page : Nat)
    (pkt : List Nat) :
    setImageLoop fill hdrLen reportLen key writeErr f [] page pkt = ([], none) := by
  cases f with
  | zero => rfl
  | succ g => rfl

theorem setImageLoop_cons (fill : List Nat → Nat → Nat → Nat → Bool → List Nat)
    (hdrLen reportLen key : Nat) (writeErr : Nat → Option Nat) (f : Nat) (a : Nat)
    (as : List Nat) (page : Nat) (pkt : List Nat) :
    setImageLoop fill hdrLen reportLen key writeErr (f + 1) (a :: as) page pkt =
      match writeErr page with
      | some e =>
        ([⟨chunkPacket fill hdrLen reportLen key (a :: as) pkt page, page,
            min (reportLen - hdrLen) (a :: as).length, chunkDone hdrLen reportLen (a :: as)⟩],
          some e)
      | none =>
        (⟨chunkPacket fill hdrLen reportLen key (a :: as) pkt page, page,
            min (reportLen - hdrLen) (a :: as).length, chunkDone hdrLen reportLen (a :: as)⟩ ::
          (setImageLoop fill hdrLen reportLen key writeErr f
            ((a :: as).drop (reportLen - hdrLen)) (page + 1)
            (chunkPacket fill hdrLen reportLen key (a :: as) pkt page)).1,
          (setImageLoop fill hdrLen reportLen key writeErr f
            ((a :: as).drop (reportLen - hdrLen)) (page + 1)
            (chunkPacket fill hdrLen reportLen key (a :: as) pkt page)).2) := rfl

theorem setImageLoop_cons_none (fill : List Nat → Nat → Nat → Nat → Bool → List Nat)
    (hdrLen reportLen key : Nat) (writeErr : Nat → Option Nat) (f : Nat) (a : Nat)
    (as : List Nat) (page : Nat) (pkt : List Nat) (hw : writeErr page = none) :
    setImageLoop fill hdrLen reportLen key writeErr (f + 1) (a :: as) page pkt =
      (⟨chunkPacket fill hdrLen reportLen key (a :: as) pkt page, page,
          min (reportLen - hdrLen) (a :: as).length, chunkDone hdrLen reportLen (a :: as)⟩ ::
        (setImageLoop fill hdrLen reportLen key writeErr f
          ((a :: as).drop (reportLen - hdrLen)) (page + 1)
          (chunkPacket fill hdrLen reportLen key (a :: as) pkt page)).1,
        (setImageLoop fill hdrLen reportLen key writeErr f
          ((a :: as).drop (reportLen - hdrLen)) (page + 1)
          (chunkPacket fill hdrLen reportLen key (a :: as) pkt page)).2) := by
  rw [setImageLoop_cons, hw]

theorem setImageLoop_cons_some (fill : List Nat → Nat → Nat → Nat → Bool → List Nat)
    (hdrLen reportLen key : Nat) (writeErr : Nat → Option Nat) (f : Nat) (a : Nat)
    (as : List Nat) (page : Nat) (pkt : List Nat) (e : Nat) (hw : writeErr page = some e) :
    setImageLoop fill hdrLen reportLen key writeErr (f + 1) (a :: as) page pkt =
      ([⟨chunkPacket fill hdrLen reportLen key (a :: as) pkt page, page,
          min (reportLen - hdrLen) (a :: as).length, chunkDone hdrLen reportLen (a :: as)⟩],
        some e) := by
  rw [setImageLoop_cons, hw]

theorem readChunk_length (hdrLen reportLen : Nat) (remaining pkt : List Nat)
    (hhdr : hdrLen < reportLen) (hpkt : pkt.length = reportLen) :
    (readChunk hdrLen reportLen remaining pkt).length = reportLen := by
  simp only [readChunk, List.length_append, List.length_take, List.length_drop, hpkt]
  omega

theorem readChunk_take (hdrLen reportLen : Nat) (remaining pkt : List Nat)
    (hhdr : hdrLen < reportLen) (hpkt : pkt.length = reportLen) :
    (readChunk hdrLen reportLen remaining pkt).take hdrLen = pkt.take hdrLen := by
  unfold readChunk
  rw [List.append_assoc]
  exact List.take_left' (by rw [List.length_take]; omega)

theorem readChunk_drop (hdrLen reportLen : Nat) (remaining pkt : List Nat)
    (hhdr : hdrLen < reportLen) (hpkt : pkt.length = reportLen) :
    (readChunk hdrLen reportLen remaining pkt).drop hdrLen =
      remaining.take (reportLen - hdrLen) ++
        pkt.drop (hdrLen + min (reportLen - hdrLen) remaining.length) := by
  unfold readChunk
  rw [List.append_assoc]
  exact List.drop_left' (by rw [List.length_take]; omega)

theorem chunkPacket_length (fill : List Nat → Nat → Nat → Nat → Bool → List Nat)
    (hdrLen reportLen key : Nat) (remaining pkt : List Nat) (page : Nat)
    (hfill : ∀ dst k p n b, (fill dst k p n b).length = dst.length)
    (hhdr : hdrLen < reportLen) (hpkt : pkt.length = reportLen) :
    (chunkPacket fill hdrLen reportLen key remaining pkt page).length = reportLen := by
  simp only [chunkPacket, List.length_append, hfill, List.length_take, List.length_drop,
    readChunk_length hdrLen reportLen remaining pkt hhdr hpkt]
  omega

theorem chunkPacket_drop (fill : List Nat → Nat → Nat → Nat → Bool → List Nat)
    (hdrLen reportLen key : Nat) (remaining pkt : List Nat) (page : Nat)
    (hfill : ∀ dst k p n b, (fill dst k p n b).length = dst.length)
    (hhdr : hdrLen < reportLen) (hpkt : pkt.length = reportLen) :
    (chunkPacket fill hdrLen reportLen key remaining pkt page).drop hdrLen =
      remaining.take (reportLen - hdrLen) ++
        pkt.drop (hdrLen + min (reportLen - hdrLen) remaining.length) := by
  unfold chunkPacket
  rw [List.drop_left'
    (by rw [hfill, List.length_take, readChunk_length hdrLen reportLen remaining pkt hhdr hpkt]
        omega)]
  exact readChunk_drop hdrLen reportLen remaining pkt hhdr hpkt

theorem ceilDiv_zero (B : Nat) (hB : 0 < B) : (0 + B - 1) / B = 0 :=
  Nat.div_eq_of_lt (by omega)

theorem ceilDiv_one (B len : Nat) (h1 : 1 ≤ len) (h2 : len ≤ B) : (len + B - 1) / B = 1 :=
  Nat.div_eq_of_lt_le (by omega) (by omega)

theorem ceilDiv_step (B len : Nat) (hB : 0 < B) (h : B < len) :
    (len + B - 1) / B = (len - B + B - 1) / B + 1 := by
  have he : len + B - 1 = (len - B + B - 1) + B := by omega
  rw [he, Nat.add_div_right _ hB]

theorem ceilDiv_pos (B len : Nat) (hB : 0 < B) (h1 : 1 ≤ len) : 1 ≤ (len + B - 1) / B := by
  rw [Nat.le_div_iff_mul_le hB]
  omega

theorem setImageLoop_spec (fill : List Nat → Nat → Nat → Nat → Bool → List Nat)
    (hdrLen reportLen key : Nat)
    (hfill : ∀ dst k p n b, (fill dst k p n b).length = dst.length)
    (hhdr : hdrLen < reportLen) :
    ∀ (fuel : Nat) (remaining : List Nat) (page : Nat) (pkt : List Nat),
      remaining.length ≤ fuel → pkt.length = reportLen →
      ChunkStreamSpec hdrLen reportLen remaining page pkt
        (setImageLoop fill hdrLen reportLen key (fun _ => none) fuel remaining page pkt) := by
  intro fuel
  induction fuel with
  | zero =>
    intro remaining page pkt hlen hpkt
    have hrem : remaining = [] := List.eq_nil_of_length_eq_zero (by omega)
    subst hrem
    rw [setImageLoop_zero]
    refine ⟨rfl, ?_, ?_⟩
    · simp only [List.length_nil]
      exact (ceilDiv_zero _ (by omega)).symm
    · intro i h
      exact absurd h (by simp)
  | succ f ih =>
    intro remaining page pkt hlen hpkt
    cases remaining with
    | nil =>
      rw [setImageLoop_nil]
      refine ⟨rfl, ?_, ?_⟩
      · simp only [List.length_nil]
        exact (ceilDiv_zero _ (by omega)).symm
      · intro i h
        exact absurd h (by simp)
    | cons a as =>
      rw [setImageLoop_cons_none fill hdrLen reportLen key _ f a as page pkt rfl]
      have hBpos : 0 < reportLen - hdrLen := by omega
      have hlen1 : 1 ≤ (a :: as).length := by simp
      have hpkt2 : (chunkPacket fill hdrLen reportLen key (a :: as) pkt page).length
          = reportLen :=
        chunkPacket_length fill hdrLen reportLen key (a :: as) pkt page hfill hhdr hpkt
      have hrest : ((a :: as).drop (reportLen - hdrLen)).length ≤ f := by
        rw [List.length_drop]
        omega
      obtain ⟨ih1, ih2, ih3⟩ := ih ((a :: as).drop (reportLen - hdrLen)) (page + 1)
        (chunkPacket fill hdrLen reportLen key (a :: as) pkt page) hrest hpkt2
      refine ⟨ih1, ?_, ?_⟩
      · rw [List.length_cons, ih2, List.length_drop]
        by_cases hc : (a :: as).length ≤ reportLen - hdrLen
        · have h0 : (a :: as).length - (reportLen - hdrLen) = 0 := by omega
          rw [h0, ceilDiv_zero _ hBpos, ceilDiv_one _ _ hlen1 hc]
        · rw [ceilDiv_step (reportLen - hdrLen) (a :: as).length hBpos (by omega)]
      · intro i h
        cases i with
        | zero =>
          refine ⟨?_, ?_, ?_, ?_, ?_⟩
          · simp only [List.getElem_cons_zero]
            omega
          · simp only [List.getElem_cons_zero, Nat.zero_mul, Nat.sub_zero]
          · simp only [List.getElem_cons_zero, List.length_cons]
            by_cases hc : (a :: as).length ≤ reportLen - hdrLen
            · have hrestnil : (a :: as).drop (reportLen - hdrLen) = [] :=
                List.drop_eq_nil_of_le hc
              simp [chunkDone, hrestnil, setImageLoop_nil_any]
            · have hrestpos : 1 ≤ ((a :: as).drop (reportLen - hdrLen)).length := by
                rw [List.length_drop]
                omega
              have hr1 : 1 ≤ (setImageLoop fill hdrLen reportLen key (fun _ => none) f
                  ((a :: as).drop (reportLen - hdrLen)) (page + 1)
                  (chunkPacket fill hdrLen reportLen key (a :: as) pkt page)).1.length := by
                rw [ih2]
                exact ceilDiv_pos _ _ hBpos hrestpos
              have hde : chunkDone hdrLen reportLen (a :: as) = false := by
                unfold chunkDone
                rw [Nat.min_eq_left (by omega), decide_eq_false (by omega :
                  ¬ reportLen - hdrLen < reportLen - hdrLen), Bool.or_false]
                cases hd : (a :: as).drop (reportLen - hdrLen) with
                | nil =>
                  exfalso
                  have hlen0 := congrArg List.length hd
                  rw [List.length_drop] at hlen0
                  simp only [List.length_nil] at hlen0
                  omega
                | cons x xs => rfl
              rw [hde]
              dsimp only
              exact (decide_eq_false (by omega)).symm
          · simp only [List.getElem_cons_zero]
            exact hpkt2
          · rw [if_pos (rfl : (0:Nat) = 0)]
            simp only [List.getElem_cons_zero, Nat.zero_mul, List.drop_zero, Nat.sub_zero]
            rw [chunkPacket_drop fill hdrLen reportLen key (a :: as) pkt page hfill hhdr hpkt]
            rw [List.drop_drop]
        | succ i =>
          have hi' : i < (setImageLoop fill hdrLen reportLen key (fun _ => none) f
              ((a :: as).drop (reportLen - hdrLen)) (page + 1)
              (chunkPacket fill hdrLen reportLen key (a :: as) pkt page)).1.length := by
            simpa using h
          obtain ⟨p1, p2, p3, p4, p5⟩ := ih3 i hi'
          have hgt : reportLen - hdrLen < (a :: as).length := by
            by_contra hc
            push_neg at hc
            have h0 : ((a :: as).drop (reportLen - hdrLen)).length = 0 := by
              rw [List.length_drop]
              omega
            rw [ih2, h0, ceilDiv_zero _ hBpos] at hi'
            exact absurd hi' (Nat.not_lt_zero i)
          have hmin : min (reportLen - hdrLen) (a :: as).length = reportLen - hdrLen :=
            Nat.min_eq_left (by omega)
          refine ⟨?_, ?_, ?_, ?_, ?_⟩
          · simp only [List.getElem_cons_succ]
            rw [p1]
            omega
          · simp only [List.getElem_cons_succ]
            rw [p2, List.length_drop]
            congr 1
            rw [Nat.succ_mul]
            generalize i * (reportLen - hdrLen) = t
            omega
          · simp only [List.getElem_cons_succ, List.length_cons]
            rw [p3]
            exact decide_eq_decide.mpr (by omega)
          · simp only [List.getElem_cons_succ]
            exact p4
          · simp only [List.getElem_cons_succ]
            rw [p5, List.length_drop]
            by_cases hiz : i = 0
            · subst hiz
              rw [if_pos (rfl : (0:Nat) = 0), if_neg (by omega : ¬ (0 + 1 = 0))]
              rw [chunkPacket_drop fill hdrLen reportLen key (a :: as) pkt page hfill hhdr hpkt,
                hmin]
              have hnil : pkt.drop (hdrLen + (reportLen - hdrLen)) = [] :=
                List.drop_eq_nil_of_le (by omega)
              rw [hnil, List.append_nil]
              simp only [Nat.zero_mul, List.drop_zero, Nat.sub_zero, Nat.zero_add, Nat.one_mul,
                Nat.sub_self]
            · obtain ⟨j, rfl⟩ : ∃ j, i = j + 1 := ⟨i - 1, by omega⟩
              simp only [if_neg hiz, if_neg (Nat.succ_ne_zero (j + 1)), Nat.add_sub_cancel]
              rw [List.drop_drop, List.drop_drop]
              have e1 : reportLen - hdrLen + (j + 1) * (reportLen - hdrLen)
                  = (j + 1 + 1) * (reportLen - hdrLen) := by
                rw [Nat.succ_mul (j + 1)]
                generalize (j + 1) * (reportLen - hdrLen) = t
                omega
              have e2 : reportLen - hdrLen + j * (reportLen - hdrLen)
                  = (j + 1) * (reportLen - hdrLen) := by
                rw [Nat.succ_mul j]
                generalize j * (reportLen - hdrLen) = t
                omega
              rw [e1, e2]
              congr 2
              rw [Nat.succ_mul (j + 1)]
              generalize (j + 1) * (reportLen - hdrLen) = t
              omega

theorem setImageLoop_abort (fill : List Nat → Nat → Nat → Nat → Bool → List Nat)
    (hdrLen reportLen key : Nat) (writeErr : Nat → Option Nat) (hhdr : hdrLen < reportLen) :
    ∀ (fuel : Nat) (remaining : List Nat) (page : Nat) (pkt : List Nat) (j e : Nat),
      remaining.length ≤ fuel → page ≤ j → writeErr j = some e →
      (∀ p, page ≤ p → p < j → writeErr p = none) →
      j - page < (remaining.length + (reportLen - hdrLen) - 1) / (reportLen - hdrLen) →
      (setImageLoop fill hdrLen reportLen key writeErr fuel remaining page pkt).1 =
        (setImageLoop fill hdrLen reportLen key (fun _ => none) fuel remaining page pkt).1.take
          (j - page + 1) ∧
      (setImageLoop fill hdrLen reportLen key writeErr fuel remaining page pkt).2 = some e := by
  intro fuel
  induction fuel with
  | zero =>
    intro remaining page pkt j e hlen hpj hwj hlow hceil
    have hrem : remaining = [] := List.eq_nil_of_length_eq_zero (by omega)
    subst hrem
    simp only [List.length_nil] at hceil
    rw [ceilDiv_zero _ (by omega)] at hceil
    omega
  | succ f ih =>
    intro remaining page pkt j e hlen hpj hwj hlow hceil
    cases remaining with
    | nil =>
      simp only [List.length_nil] at hceil
      rw [ceilDiv_zero _ (by omega)] at hceil
      omega
    | cons a as =>
      have hBpos : 0 < reportLen - hdrLen := by omega
      by_cases hpage : page = j
      · subst hpage
        rw [setImageLoop_cons_some fill hdrLen reportLen key writeErr f a as page pkt e hwj,
          setImageLoop_cons_none fill hdrLen reportLen key (fun _ => none) f a as page pkt rfl]
        refine ⟨?_, rfl⟩
        simp
      · have hlt : page < j := by omega
        have hwp : writeErr page = none := hlow page (Nat.le_refl _) hlt
        rw [setImageLoop_cons_none fill hdrLen reportLen key writeErr f a as page pkt hwp,
          setImageLoop_cons_none fill hdrLen reportLen key (fun _ => none) f a as page pkt rfl]
        have hgt : reportLen - hdrLen < (a :: as).length := by
          by_contra hc
          push_neg at hc
          rw [ceilDiv_one _ _ (by simp) hc] at hceil
          omega
        obtain ⟨ihl, ihr⟩ := ih ((a :: as).drop (reportLen - hdrLen)) (page + 1)
          (chunkPacket fill hdrLen reportLen key (a :: as) pkt page) j e
          (by rw [List.length_drop]; omega)
          (by omega)
          hwj
          (fun p hp1 hp2 => hlow p (by omega) hp2)
          (by
            rw [ceilDiv_step (reportLen - hdrLen) (a :: as).length hBpos hgt] at hceil
            rw [List.length_drop]
            omega)
        constructor
        · dsimp only
          rw [ihl]
          have hsplit : j - page + 1 = (j - (page + 1) + 1) + 1 := by omega
          rw [hsplit, List.take_succ_cons]
        · dsimp only
          exact ihr

theorem writeHeaderV1_length (dst : List Nat) (k p n : Nat) (b : Bool) :
    (writeHeaderV1 dst k p n b).length = dst.length := by
  simp [writeHeaderV1]

set_option maxRecDepth 100000 in
/-- Claim C1, counterexample: on the StreamDeckMini wire format (V1 header,
16-byte header, 1024-byte report, body capacity 1008), a 1009-byte payload
produces two packets, and the second (short, final) packet's body beyond its
single payload byte is not zero-padded: at offset 17 of the packet it holds
byte 7, left over from the first packet's chunk. -/
theorem claim_C1_counterexample :
    (setImagePackets writeHeaderV1 imageHeaderV1 1024 0
        (List.replicate 1008 7 ++ [9]) (fun _ => none)).1.length = 2 ∧
    ((setImagePackets writeHeaderV1 imageHeaderV1 1024 0
        (List.replicate 1008 7 ++ [9]) (fun _ => none)).1[1]!).bytes[16]! = 9 ∧
    ((setImagePackets writeHeaderV1 imageHeaderV1 1024 0
        (List.replicate 1008 7 ++ [9]) (fun _ => none)).1[1]!).bytes[17]! = 7 ∧
    ((setImagePackets writeHeaderV1 imageHeaderV1 1024 0
        (List.replicate 1008 7 ++ [9]) (fun _ => none)).1[1]!).bytes[17]! ≠ 0 :=
  ⟨rfl, rfl, rfl, by decide⟩

/-- Claim C1 (amended as to the padding of a short final packet): for a
non-empty payload the SetImage loop, when every write succeeds, produces
exactly ⌈L/B⌉ packets of the full report length, with page numbers 0..n-1 in
order and no gaps, the chunk byte count passed to the header filler equal to
the bytes read for that packet, the done flag false on every packet except
the last and true on the last (the chunk that exhausted the payload or read
fewer than B bytes), and each packet's body the next payload slice — the
final short slice being followed not by zero padding but by the residual
bytes the previous iteration left in the reused packet buffer (zeros only
when the whole payload fits in one packet); and a transport write failure at
page j aborts the loop immediately: exactly packets 0..j are written and the
write error is returned. -/
theorem claim_C1_setImage_chunking
    (fill : List Nat → Nat → Nat → Nat → Bool → List Nat) (hdr : List Nat)
    (reportLen key : Nat) (data : List Nat) (writeErr : Nat → Option Nat) (j e : Nat)
    (hfill : ∀ dst k p n b, (fill dst k p n b).length = dst.length)
    (hhdr : hdr.length < reportLen) (hdata : data ≠ []) :
    ChunkStreamSpec hdr.length reportLen data 0
      (hdr.take reportLen ++ List.replicate (reportLen - hdr.length) 0)
      (setImagePackets fill hdr reportLen key data (fun _ => none)) ∧
    1 ≤ (setImagePackets fill hdr reportLen key data (fun _ => none)).1.length ∧
    (writeErr j = some e → (∀ p, p < j → writeErr p = none) →
      j < (data.length + (reportLen - hdr.length) - 1) / (reportLen - hdr.length) →
      (setImagePackets fill hdr reportLen key data writeErr).1 =
        (setImagePackets fill hdr reportLen key data (fun _ => none)).1.take (j + 1) ∧
      (setImagePackets fill hdr reportLen key data writeErr).2 = some e) := by
  have hpkt0 : (hdr.take reportLen ++ List.replicate (reportLen - hdr.length) 0).length
      = reportLen := by
    simp only [List.length_append, List.length_take, List.length_replicate]
    omega
  have hspec := setImageLoop_spec fill hdr.length reportLen key hfill hhdr data.length data 0
    (hdr.take reportLen ++ List.replicate (reportLen - hdr.length) 0) (Nat.le_refl _) hpkt0
  refine ⟨hspec, ?_, ?_⟩
  · have hlen1 : 1 ≤ data.length := by
      cases data with
      | nil => exact absurd rfl hdata
      | cons x xs => simp
    have h2 := hspec.2.1
    rw [show setImagePackets fill hdr reportLen key data (fun _ => none)
        = setImageLoop fill hdr.length reportLen key (fun _ => none) data.length data 0
          (hdr.take reportLen ++ List.replicate (reportLen - hdr.length) 0) from rfl, h2]
    exact ceilDiv_pos _ _ (by omega) hlen1
  · intro hwj hlow hceil
    have habort := setImageLoop_abort fill hdr.length reportLen key writeErr hhdr
      data.length data 0 (hdr.take reportLen ++ List.replicate (reportLen - hdr.length) 0)
      j e (Nat.le_refl _) (Nat.zero_le _) hwj (fun p _ hp2 => hlow p hp2)
      (by simpa using hceil)
    simpa using habort

/-- Witness for claim C1 at a small concrete instance: header [9,9], report
length 4 (body capacity 2), payload [1,2,3] (two packets), V1 filler, and a
write failure at page 1. -/
theorem claim_C1_witness :
    ((∀ dst k p n b, (writeHeaderV1 dst k p n b).length = dst.length) ∧
      ([9, 9] : List Nat).length < 4 ∧ ([1, 2, 3] : List Nat) ≠ []) ∧
    (ChunkStreamSpec ([9, 9] : List Nat).length 4 [1, 2, 3] 0
        (([9, 9] : List Nat).take 4 ++ List.replicate (4 - ([9, 9] : List Nat).length) 0)
        (setImagePackets writeHeaderV1 [9, 9] 4 5 [1, 2, 3] (fun _ => none)) ∧
      1 ≤ (setImagePackets writeHeaderV1 [9, 9] 4 5 [1, 2, 3] (fun _ => none)).1.length ∧
      ((fun p => if p = 1 then some 6 else none) 1 = some 6 →
        (∀ p, p < 1 → (fun p => if p = 1 then some 6 else none) p = none) →
        1 < (([1, 2, 3] : List Nat).length + (4 - ([9, 9] : List Nat).length) - 1) /
          (4 - ([9, 9] : List Nat).length) →
        (setImagePackets writeHeaderV1 [9, 9] 4 5 [1, 2, 3]
            (fun p => if p = 1 then some 6 else none)).1 =
          (setImagePackets writeHeaderV1 [9, 9] 4 5 [1, 2, 3] (fun _ => none)).1.take (1 + 1) ∧
        (setImagePackets writeHeaderV1 [9, 9] 4 5 [1, 2, 3]
            (fun p => if p = 1 then some 6 else none)).2 = some 6)) :=
  ⟨⟨writeHeaderV1_length, by decide, by decide⟩,
    claim_C1_setImage_chunking writeHeaderV1 [9, 9] 4 5 [1, 2, 3]
      (fun p => if p = 1 then some 6 else none) 1 6 writeHeaderV1_length
      (by decide) (by decide)⟩

set_option maxRecDepth 100000 in
/-- Claim C5, evaluation at the failing input: on the StreamDeckMini (2 rows
by 3 columns), Key(2, 0) — a row index equal to the row count, out of range
for the zero-based grid — does not panic and returns 6, which equals the
device's button count, a non-existent key; SetImage likewise accepts row 2
and proceeds to image processing and a transport write (no error, one
packet written) instead of returning an out-of-bounds error. -/
theorem claim_C5_key_bounds :
    keyOp streamDeckMini 2 0 = some 6 ∧
    streamDeckMini.rows = 2 ∧
    streamDeckMini.rows * streamDeckMini.cols = 6 ∧
    (setImageOp testScale testTransform testEncode streamDeckMini true 2 0
        (Img.bitmap ⟨10, 10, 5⟩) (fun _ => none)).2 = none ∧
    (setImageOp testScale testTransform testEncode streamDeckMini true 2 0
        (Img.bitmap ⟨10, 10, 5⟩) (fun _ => none)).1.length = 1 := by
  refine ⟨?_, ?_, ?_, ?_, ?_⟩ <;> decide

/-- Claim C6, counterexample: ResetKeyStream returns the raw transport error
without the connectivity check: with transport error 5 and the device no
longer enumerable, it returns the transport error itself, not the
NotConnected error the connectivity check produces, contradicting the claim
that every listed feature-report command routes its transport error through
the check. -/
theorem claim_C6_counterexample :
    (resetKeyStreamOp streamDeckMini (some 5)).2 = some (Err.transport 5) ∧
    checkConnected false (some 5) = some Err.notConnected ∧
    some (Err.transport 5) ≠ some Err.notConnected :=
  ⟨rfl, rfl, by decide⟩

/-- Claim C6 (amended: every listed operation except the key-stream reset):
on an established session, Reset, SetBrightness (in range), KeyStates, the
serial and firmware queries (in their NUL-terminated branch) and the
SetImage packet write all route a transport failure through the
connectivity check — NotConnected when the cached serial is no longer
enumerable, the raw transport error otherwise — while ResetKeyStream
returns the raw transport error unchecked. -/
theorem claim_C6_transport_errors (d : device) (en : Bool) (e : Nat) (percent : Int)
    (resp1 resp2 : List Nat) (writeErr : Nat → Option Nat)
    (scale : Nat × Nat → Bitmap → Bitmap) (transform : Bitmap → Bitmap)
    (encode : Bitmap → List Nat) (img : Img) (raw : RawImg) (row col : Int)
    (hv : d.visual = true) (hp0 : 0 ≤ percent) (hp100 : percent ≤ 100)
    (h1 : resp1.length = if d.serialPayloadLen ≠ 0 then d.serialPayloadLen else d.payloadLen)
    (hs1 : 0 ∈ resp1.drop d.serialOffset)
    (h2 : resp2.length = d.payloadLen)
    (hs2 : 0 ∈ resp2.drop d.firmwareOffset)
    (hrow : ¬(row < 0 ∨ (d.rows : Int) < row))
    (hcol : ¬(col < 0 ∨ (d.cols : Int) < col))
    (hraw : setImageRawSel scale transform encode d img = Except.ok raw) :
    (resetOp d en (some e)).2 = checkConnected en (some e) ∧
    (setBrightnessOp d en (some e) percent).2 = checkConnected en (some e) ∧
    (∀ resp, (keyStatesOp d en (some e) resp).2 =
      Except.error (if en then Err.transport e else Err.notConnected)) ∧
    (serialOp d [] en (some e) resp1).2.2 = checkConnected en (some e) ∧
    (firmwareOp d en (some e) resp2).2.2 = checkConnected en (some e) ∧
    (setImageOp scale transform encode d en row col img writeErr).2 =
      checkConnected en (setImagePackets d.fillHeader d.imageHeader d.imgReportLen
        ((row * d.cols + col).toNat) raw.data writeErr).2 ∧
    (resetKeyStreamOp d (some e)).2 = some (Err.transport e) ∧
    (en = false → checkConnected en (some e) = some Err.notConnected ∧
      (resetKeyStreamOp d (some e)).2 ≠ some Err.notConnected) := by
  refine ⟨?_, ?_, ?_, ?_, ?_, ?_, ?_, ?_⟩
  · simp [resetOp, hv]
  · simp [setBrightnessOp, hv]
    rw [if_neg (by omega : ¬(percent < 0 ∨ 100 < percent))]
  · intro resp
    rfl
  · simp [serialOp, ← h1, hs1]
  · simp [firmwareOp, ← h2, hs2]
  · simp [setImageOp, hrow, hcol, hraw]
  · simp [resetKeyStreamOp, hv]
  · intro hen
    subst hen
    refine ⟨rfl, ?_⟩
    simp [resetKeyStreamOp, hv]

/-- Witness for claim C6 on the StreamDeckMini with the device no longer
enumerable, transport error 5, percent 50, all-NUL query responses, button
(1,1), a plain bitmap image and a failing packet write. -/
theorem claim_C6_witness :
    (streamDeckMini.visual = true ∧
      (0:Int) ≤ 50 ∧ (50:Int) ≤ 100 ∧
      (List.replicate 17 0 : List Nat).length =
        (if streamDeckMini.serialPayloadLen ≠ 0 then streamDeckMini.serialPayloadLen
          else streamDeckMini.payloadLen) ∧
      0 ∈ (List.replicate 17 0 : List Nat).drop streamDeckMini.serialOffset ∧
      (List.replicate 17 0 : List Nat).length = streamDeckMini.payloadLen ∧
      0 ∈ (List.replicate 17 0 : List Nat).drop streamDeckMini.firmwareOffset ∧
      ¬((1:Int) < 0 ∨ (streamDeckMini.rows : Int) < 1) ∧
      ¬((1:Int) < 0 ∨ (streamDeckMini.cols : Int) < 1) ∧
      setImageRawSel testScale testTransform testEncode streamDeckMini
        (Img.bitmap ⟨10, 10, 5⟩) =
        Except.ok (rawImageBody testScale testTransform testEncode streamDeckMini
          ⟨10, 10, 5⟩)) ∧
    ((resetOp streamDeckMini false (some 5)).2 = checkConnected false (some 5) ∧
      (setBrightnessOp streamDeckMini false (some 5) 50).2 = checkConnected false (some 5) ∧
      (∀ resp, (keyStatesOp streamDeckMini false (some 5) resp).2 =
        Except.error (if false then Err.transport 5 else Err.notConnected)) ∧
      (serialOp streamDeckMini [] false (some 5) (List.replicate 17 0)).2.2 =
        checkConnected false (some 5) ∧
      (firmwareOp streamDeckMini false (some 5) (List.replicate 17 0)).2.2 =
        checkConnected false (some 5) ∧
      (setImageOp testScale testTransform testEncode streamDeckMini false 1 1
          (Img.bitmap ⟨10, 10, 5⟩) (fun _ => some 9)).2 =
        checkConnected false (setImagePackets streamDeckMini.fillHeader
          streamDeckMini.imageHeader streamDeckMini.imgReportLen
          (((1:Int) * streamDeckMini.cols + 1).toNat)
          (rawImageBody testScale testTransform testEncode streamDeckMini
            ⟨10, 10, 5⟩).data (fun _ => some 9)).2 ∧
      (resetKeyStreamOp streamDeckMini (some 5)).2 = some (Err.transport 5) ∧
      (false = false → checkConnected false (some 5) = some Err.notConnected ∧
        (resetKeyStreamOp streamDeckMini (some 5)).2 ≠ some Err.notConnected)) := by
  have h := claim_C6_transport_errors streamDeckMini false 5 50 (List.replicate 17 0)
    (List.replicate 17 0) (fun _ => some 9) testScale testTransform testEncode
    (Img.bitmap ⟨10, 10, 5⟩)
    (rawImageBody testScale testTransform testEncode streamDeckMini ⟨10, 10, 5⟩) 1 1
    (by decide) (by decide) (by decide) (by decide) (by decide) (by decide) (by decide)
    (by decide) (by decide) rfl
  exact ⟨⟨by decide, by decide, by decide, by decide, by decide, by decide, by decide,
    by decide, by decide, rfl⟩, h⟩

end Ardilla
